import Mathlib

/-
  Verification development for the penpal-ai-asimov-service AI microservice.

  The TypeScript sources are shallowly embedded as Lean definitions:
  - strings are Lean `String` (JS strings; all inputs of interest are ASCII),
  - JS `number` values used by the cost computation are modelled as exact
    rationals `ℚ`,
  - thrown JS exceptions are modelled with `Except JsError`,
  - the outbound OpenAI SDK call is a parameter (an oracle function) of the
    orchestrator operations, returning either a response or a provider error
    message (the SDK never throws a Nest `HttpException`).
-/

set_option maxRecDepth 20000

namespace Penpal

/-- JS truthiness-based defaulting `x || d` for an optional string field:
`undefined`/missing and the empty string are falsy and fall back to `d`. -/
def jsOr (o : Option String) (d : String) : String :=
  match o with
  | none => d
  | some s => if s = "" then d else s

/-- Fuel-indexed scanner for JS `String.prototype.replace(new RegExp(pat, "g"), rep)`
with a literal nonempty pattern: scan left to right, replace each (non-overlapping)
occurrence, never rescanning the replacement text. The fuel is an upper bound on
the number of scanned positions; `replaceAllL` supplies `s.length`, which always
suffices, so the `0` case is unreachable. -/
def replaceAllFuel (pat rep : List Char) : Nat → List Char → List Char
  | 0, s => s
  | _ + 1, [] => []
  | fuel + 1, c :: cs =>
    if !pat.isEmpty && pat.isPrefixOf (c :: cs) then
      rep ++ replaceAllFuel pat rep fuel (cs.drop (pat.length - 1))
    else
      c :: replaceAllFuel pat rep fuel cs

/-- Global replacement on char lists (JS `s.replace(/pat/g, rep)` for a literal
pattern; an empty pattern is treated as a no-op, and no pattern used by the
service is empty). -/
def replaceAllL (pat rep s : List Char) : List Char :=
  replaceAllFuel pat rep s.length s

/-- Global replacement on strings. -/
def replaceAll (s pat rep : String) : String :=
  ⟨replaceAllL pat.data rep.data s.data⟩

/-- Substring test on char lists (JS `String.prototype.includes`). -/
def isSubstrL (pat : List Char) : List Char → Bool
  | [] => pat.isEmpty
  | c :: cs => pat.isPrefixOf (c :: cs) || isSubstrL pat cs

/-- Substring test on strings (JS `s.includes(sub)`). -/
def includesSubstr (s sub : String) : Bool :=
  isSubstrL sub.data s.data

/-- Message role (`"system" | "user" | "assistant"`). -/
inductive Role where
  | system
  | user
  | assistant
deriving DecidableEq, Repr

/-- AIMessage from ai-provider.interface.ts; the optional `timestamp` field is
never read by the embedded code paths and is omitted. -/
structure AIMessage where
  role : Role
  content : String
deriving DecidableEq, Repr

/-- PromptTemplate from ai-provider.interface.ts (the optional `language` and
`level` fields are never set nor read by the embedded code and are omitted).
The source field `variables` is spelled `declaredVariables` because `variables`
is a reserved word in Lean. -/
structure PromptTemplate where
  id : String
  name : String
  description : String
  template : String
  declaredVariables : List String
  category : String
deriving DecidableEq, Repr

/-- PromptContext from ai-provider.interface.ts. `additionalContext` is a
`Record<string, any>`; every value the service ever stores or reads there is a
string, so it is modelled as an association list of strings. -/
structure PromptContext where
  userId : Option String := none
  conversationId : Option String := none
  language : Option String := none
  level : Option String := none
  userMessage : Option String := none
  conversationHistory : Option (List AIMessage) := none
  additionalContext : Option (List (String × String)) := none
deriving DecidableEq, Repr

/-- AICompletionOptions (plus the orchestrator's extra `provider` key, which the
adapter ignores). JS `number` temperatures are modelled as exact rationals. -/
structure AICompletionOptions where
  temperature : Option ℚ := none
  maxTokens : Option Nat := none
  model : Option String := none
  conversationId : Option String := none
  userId : Option String := none
  provider : Option String := none
deriving DecidableEq, Repr

/-- Neutral completion result; only `content` matters to the embedded claims,
the remaining fields are carried opaquely by the orchestrator. -/
structure AICompletionResponse where
  content : String
deriving DecidableEq, Repr

/-- A thrown JS value as the orchestrator distinguishes them: a Nest
`HttpException` (message and HTTP status) or any other `Error` (message). -/
inductive JsError where
  | httpException (message : String) (status : Nat)
  | jsErr (message : String)
deriving DecidableEq, Repr

/-- The error thrown by `PromptTemplateService.renderTemplate` for a missing id:
a plain `Error` (not an `HttpException`). -/
def templateNotFound (id : String) : JsError :=
  JsError.jsErr ("Template not found: " ++ id)

/-- One transcript line of `formatConversationHistory`:
a template literal producing `<Student|Tutor>: <content>` where role `user`
maps to `Student` and any other role maps to `Tutor`. -/
def formatLine (msg : AIMessage) : String :=
  (if msg.role == Role.user then "Student" else "Tutor") ++ ": " ++ msg.content

/-- PromptTemplateService.formatConversationHistory: the empty transcript is a
fixed sentence; otherwise `slice(-5)` keeps only the last 5 messages, each
formatted by `formatLine` and joined with newlines. -/
def formatConversationHistory (messages : List AIMessage) : String :=
  if messages.isEmpty then
    "No previous conversation."
  else
    String.intercalate "\n"
      ((messages.drop (messages.length - 5)).map formatLine)

/-- JS `context.additionalContext?.[key]`: `none` when the map is absent or the
key is missing. -/
def acLookup (context : PromptContext) (key : String) : Option String :=
  context.additionalContext.bind fun m => m.lookup key

/-- The per-variable `switch` inside `PromptTemplateService.renderTemplate`:
well-known names resolve from the context's explicit fields (with JS `||`
defaulting), `text` aliases `userMessage`, `topics` reads `additionalContext`
with a fixed default phrase, and any other declared variable falls through to
`additionalContext` with the empty string as last resort. -/
def resolveVariable (context : PromptContext) (varName : String) : String :=
  if varName = "language" then jsOr context.language "English"
  else if varName = "level" then jsOr context.level "intermediate"
  else if varName = "userMessage" then jsOr context.userMessage ""
  else if varName = "conversationHistory" then
    formatConversationHistory (context.conversationHistory.getD [])
  else if varName = "text" then jsOr context.userMessage ""
  else if varName = "topics" then jsOr (acLookup context "topics") "general conversation"
  else jsOr (acLookup context varName) ""

/-- The template store: the service's `Map<string, PromptTemplate>`, modelled as
its list of entries; `getTemplate` is `templates.get(id)`. All stores built by
the service have pairwise distinct ids, so first-match lookup agrees with the
`Map`. -/
def getTemplate (store : List PromptTemplate) (id : String) : Option PromptTemplate :=
  store.find? fun t => t.id == id

/-- PromptTemplateService.renderTemplate: look the template up (throwing a plain
`Error` when absent), then for each declared variable, in the order of the
`variables` array, globally replace the placeholder by the resolved value in the
partially substituted string. -/
def renderTemplate (store : List PromptTemplate) (templateId : String)
    (context : PromptContext) : Except JsError String :=
  match getTemplate store templateId with
  | none => .error (templateNotFound templateId)
  | some t =>
    .ok (t.declaredVariables.foldl
      (fun rendered varName =>
        replaceAll rendered ("\x7b\x7b" ++ varName ++ "\x7d\x7d")
          (resolveVariable context varName))
      t.template)

/-- Convenience accessor for a successful render (used only to state concrete
evaluation facts about rendered outputs). -/
def renderOrEmpty (store : List PromptTemplate) (templateId : String)
    (context : PromptContext) : String :=
  ((renderTemplate store templateId context).toOption).getD ""

/-- The seeded `conversation_tutor` template, transcribed verbatim from
`initializeDefaultTemplates` (braces and apostrophes written as escapes). -/
def conversationTutorTemplate : PromptTemplate where
  id := "conversation_tutor"
  name := "Language Tutor"
  description := "AI tutor for language learning conversations"
  template :=
    "You are a friendly and encouraging \x7b\x7blanguage\x7d\x7d language tutor. Your student is at a \x7b\x7blevel\x7d\x7d level and wants to practice conversation skills.\n\nLEVEL-SPECIFIC GUIDELINES:\n\nFOR BEGINNER LEVEL:\n- Use VERY simple words and short sentences (5-7 words max)\n- Speak like you\x27re talking to someone who has NEVER studied \x7b\x7blanguage\x7d\x7d before\n- Use present tense mainly (I am, you are, this is...)\n- Include basic vocabulary explanations when needed\n- Add simple translations or explanations in parentheses occasionally\n- Ask ONE simple question at a time\n- Repeat important words\n- Example: \"Hello! I am good. How are you? (How = comment)\" instead of complex sentences\n\nFOR INTERMEDIATE LEVEL:\n- Use everyday vocabulary and moderate sentence length\n- Mix present and past tenses\n- Provide gentle corrections with explanations\n- Ask follow-up questions to encourage speaking\n\nFOR ADVANCED LEVEL:\n- Use natural, flowing language\n- Include idioms and complex grammar\n- Focus on nuance and cultural context\n- Challenge with sophisticated topics\n\nPrevious conversation context:\n\x7b\x7bconversationHistory\x7d\x7d\n\nStudent\x27s message: \"\x7b\x7buserMessage\x7d\x7d\"\n\nRespond as a helpful tutor, adapting your language complexity to the \x7b\x7blevel\x7d\x7d level. For beginners, be extra simple and clear."
  declaredVariables := ["language", "level", "conversationHistory", "userMessage"]
  category := "conversation"

/-- The seeded `conversation_friend` template, transcribed verbatim from
`initializeDefaultTemplates` (braces and apostrophes written as escapes). -/
def conversationFriendTemplate : PromptTemplate where
  id := "conversation_friend"
  name := "Conversation Partner"
  description := "AI conversation partner for casual practice"
  template :=
    "You are a friendly conversation partner helping someone practice \x7b\x7blanguage\x7d\x7d. Act like a native speaker friend who is patient and helpful.\n\nADAPT YOUR LANGUAGE TO THE \x7b\x7blevel\x7d\x7d LEVEL:\n\nFOR BEGINNER LEVEL:\n- Use SUPER simple words only (yes, no, good, bad, I, you, like, want...)\n- Keep sentences very short (3-5 words)\n- Speak like talking to someone learning their first \x7b\x7blanguage\x7d\x7d words\n- Repeat key words: \"Good! That is good!\"\n- Use basic present tense only\n- Be very encouraging and patient\n- Example: \"Hi! I am fine. You good?\" instead of \"Hey! I\x27m doing great, how about you?\"\n\nFOR INTERMEDIATE LEVEL:\n- Use casual, everyday language\n- Mix tenses naturally but keep it simple\n- Show genuine interest in their topics\n- Be encouraging and friendly\n\nFOR ADVANCED LEVEL:\n- Use natural, native-level conversation\n- Include slang and expressions\n- Challenge them with interesting topics\n- Be more spontaneous and creative\n\nContext: \x7b\x7bconversationHistory\x7d\x7d\n\nTheir message: \"\x7b\x7buserMessage\x7d\x7d\"\n\nRespond as a friendly conversation partner, matching the \x7b\x7blevel\x7d\x7d complexity. For beginners, be extremely simple and clear."
  declaredVariables := ["language", "level", "conversationHistory", "userMessage"]
  category := "conversation"

/-- The seeded `grammar_correction` template, transcribed verbatim from
`initializeDefaultTemplates` (braces and apostrophes written as escapes). -/
def grammarCorrectionTemplate : PromptTemplate where
  id := "grammar_correction"
  name := "Grammar Correction"
  description := "Detailed grammar analysis and correction"
  template :=
    "Analyze the following \x7b\x7blanguage\x7d\x7d text for important grammatical and vocabulary errors. Focus on meaningful issues that affect comprehension and language learning.\n\nText: \"\x7b\x7btext\x7d\x7d\"\nLevel: \x7b\x7blevel\x7d\x7d\n\nIMPORTANT GUIDELINES:\n- IGNORE capitalization errors (e.g., \"hi\" vs \"Hi\")\n- IGNORE punctuation spacing (e.g., spaces before question marks)\n- IGNORE minor punctuation issues unless they severely affect meaning\n- FOCUS ON: verb tenses, subject-verb agreement, word order, vocabulary usage, prepositions, articles (a/an/the)\n- FOCUS ON: sentence structure and meaningful grammatical mistakes\n\nEXPLANATION STYLE BASED ON LEVEL:\n\nFOR BEGINNER LEVEL:\n- Use VERY simple explanations\n- Explain basic grammar rules in simple terms\n- Use examples with basic vocabulary\n- Be extra encouraging (\"Good try!\" \"Almost there!\")\n- Focus on 1-2 main errors only\n- Example: \"Use \x27I am\x27 not \x27I is\x27. We always say \x27I am happy\x27.\"\n\nFOR INTERMEDIATE/ADVANCED LEVELS:\n- Provide detailed grammatical explanations\n- Include multiple examples and rules\n- Challenge with more complex corrections\n\nPlease provide:\n1. **Corrected Version**: The text with ONLY major grammatical/vocabulary errors fixed\n2. **Error Analysis**: List each SIGNIFICANT error with explanation adapted to \x7b\x7blevel\x7d\x7d level\n3. **Grammar Rules**: Simple rules for beginners, detailed for others\n4. **Learning Tips**: Level-appropriate suggestions\n\nFocus on errors that truly impact language learning and communication effectiveness."
  declaredVariables := ["language", "text", "level"]
  category := "correction"

/-- The seeded `style_improvement` template, transcribed verbatim from
`initializeDefaultTemplates` (braces and apostrophes written as escapes). -/
def styleImprovementTemplate : PromptTemplate where
  id := "style_improvement"
  name := "Style Improvement"
  description := "Writing style analysis and suggestions"
  template :=
    "Analyze and improve the writing style of this \x7b\x7blanguage\x7d\x7d text:\n\nText: \"\x7b\x7btext\x7d\x7d\"\n\nPlease provide:\n1. **Style Assessment**: Evaluate formality, clarity, and flow\n2. **Improved Version**: Rewrite with better style\n3. **Specific Changes**: Explain each improvement made\n4. **Style Tips**: General advice for better writing\n\nConsider the \x7b\x7blevel\x7d\x7d level of the learner and provide appropriate suggestions."
  declaredVariables := ["language", "text", "level"]
  category := "correction"

/-- The seeded `vocabulary_analysis` template, transcribed verbatim from
`initializeDefaultTemplates` (braces and apostrophes written as escapes). -/
def vocabularyAnalysisTemplate : PromptTemplate where
  id := "vocabulary_analysis"
  name := "Vocabulary Analysis"
  description := "Vocabulary usage analysis and enhancement"
  template :=
    "Analyze the vocabulary usage in this \x7b\x7blanguage\x7d\x7d text and suggest improvements:\n\nText: \"\x7b\x7btext\x7d\x7d\"\n\nFor a \x7b\x7blevel\x7d\x7d level learner, please provide:\n1. **Vocabulary Assessment**: Current level and appropriateness\n2. **Enhanced Version**: Text with improved vocabulary\n3. **Word Explanations**: Meaning and usage of new words suggested\n4. **Vocabulary Building Tips**: How to expand vocabulary at this level\n\nFocus on making the vocabulary more sophisticated while remaining appropriate for the learner\x27s level."
  declaredVariables := ["language", "text", "level"]
  category := "analysis"

/-- The seeded `conversation_starter` template, transcribed verbatim from
`initializeDefaultTemplates` (braces and apostrophes written as escapes). -/
def conversationStarterTemplate : PromptTemplate where
  id := "conversation_starter"
  name := "Conversation Starter"
  description := "Generate conversation starters for practice"
  template :=
    "Generate engaging conversation starters for a \x7b\x7blevel\x7d\x7d level \x7b\x7blanguage\x7d\x7d learner.\n\nTopic interests: \x7b\x7btopics\x7d\x7d\n\nCreate 5 conversation starters that are:\n- Appropriate for \x7b\x7blevel\x7d\x7d level\n- Engaging and interesting\n- Encourage extended dialogue\n- Cover different conversation skills (asking questions, expressing opinions, describing experiences)\n\nFormat each starter with a brief explanation of what conversation skills it practices."
  declaredVariables := ["level", "language", "topics"]
  category := "system"

/-- The six templates seeded by the `PromptTemplateService` constructor, in
insertion order. -/
def defaultTemplates : List PromptTemplate :=
  [conversationTutorTemplate, conversationFriendTemplate, grammarCorrectionTemplate, styleImprovementTemplate, vocabularyAnalysisTemplate, conversationStarterTemplate]

/-- Context argument of `generateTutorResponse`, `generateConversationPartnerResponse`
and `analyzeText` (`analyzeText` never reads `userId`/`conversationId`). -/
structure LearnContext where
  language : Option String := none
  level : Option String := none
  userId : Option String := none
  conversationId : Option String := none
deriving DecidableEq, Repr

/-- Context argument of `generateConversationStarters`. -/
structure StarterContext where
  language : Option String := none
  level : Option String := none
  topics : Option String := none
deriving DecidableEq, Repr

/-- The outbound provider adapter (`OpenAIService.generateCompletion`), taken as
an oracle: it receives the assembled message list and the options object and
either returns a completion or fails with a provider error message. The OpenAI
SDK raises its own error classes, never a Nest `HttpException`, so adapter
failures are plain errors. -/
def Adapter : Type :=
  List AIMessage → Option AICompletionOptions → Except String AICompletionResponse

/-- JS `options?.provider || this.defaultProvider`. -/
def resolveProvider (options : Option AICompletionOptions) (defaultProvider : String) : String :=
  jsOr (options.bind (·.provider)) defaultProvider

/-- The orchestrator `catch` boundary of `generateChatResponse` / `analyzeText`:
an `HttpException` is re-thrown unchanged; every other error is replaced by the
operation's single opaque 500 failure. -/
def normalizeBoundary (opaqueMessage : String) :
    Except JsError AICompletionResponse → Except JsError AICompletionResponse
  | .ok a => .ok a
  | .error (.httpException m s) => .error (.httpException m s)
  | .error (.jsErr _) => .error (.httpException opaqueMessage 500)

/-- AIProviderService.generateChatResponse: dispatch on
`options?.provider || default`; the only wired adapter is `"openai"`, any other
id throws `HttpException(400)`; the surrounding catch re-throws `HttpException`s
and wraps everything else into the opaque `"Failed to generate AI response"`
500 failure. -/
def generateChatResponse (defaultProvider : String) (adapter : Adapter)
    (messages : List AIMessage) (options : Option AICompletionOptions) :
    Except JsError AICompletionResponse :=
  normalizeBoundary "Failed to generate AI response"
    (let provider := resolveProvider options defaultProvider
     if provider = "openai" then
       (adapter messages options).mapError JsError.jsErr
     else
       .error (.httpException ("Unsupported AI provider: " ++ provider) 400))

/-- The `PromptContext` built identically by `generateTutorResponse` and
`generateConversationPartnerResponse`. -/
def chatPromptContext (userMessage : String) (conversationHistory : List AIMessage)
    (context : LearnContext) : PromptContext :=
  { userMessage := some userMessage,
    conversationHistory := some conversationHistory,
    language := some (jsOr context.language "English"),
    level := some (jsOr context.level "intermediate"),
    userId := context.userId,
    conversationId := context.conversationId }

/-- JS `array.slice(-n)` for `n ≥ 1`: the last `n` elements (all of them when
the list is shorter). -/
def lastN (n : Nat) (l : List α) : List α :=
  l.drop (l.length - n)

/-- The message list `generateTutorResponse` sends: the rendered system prompt,
then `conversationHistory.slice(-10)`, then the new user message. -/
def tutorMessages (systemPrompt : String) (history : List AIMessage)
    (userMessage : String) : List AIMessage :=
  { role := .system, content := systemPrompt } ::
    (lastN 10 history ++ [{ role := .user, content := userMessage }])

/-- AIProviderService.generateTutorResponse: render `conversation_tutor`,
assemble `tutorMessages`, delegate to `generateChatResponse`. Its own catch
only logs and re-throws the error unchanged. -/
def generateTutorResponse (store : List PromptTemplate) (defaultProvider : String)
    (adapter : Adapter) (userMessage : String) (conversationHistory : List AIMessage)
    (context : LearnContext) (options : Option AICompletionOptions) :
    Except JsError AICompletionResponse :=
  match renderTemplate store "conversation_tutor"
      (chatPromptContext userMessage conversationHistory context) with
  | .error e => .error e
  | .ok systemPrompt =>
    generateChatResponse defaultProvider adapter
      (tutorMessages systemPrompt conversationHistory userMessage) options

/-- The message list `generateConversationPartnerResponse` sends: system prompt,
`conversationHistory.slice(-8)`, new user message. -/
def partnerMessages (systemPrompt : String) (history : List AIMessage)
    (userMessage : String) : List AIMessage :=
  { role := .system, content := systemPrompt } ::
    (lastN 8 history ++ [{ role := .user, content := userMessage }])

/-- The options `generateConversationPartnerResponse` forwards:
`\x7b ...options, temperature: 0.8 \x7d` — the spread is written first, so the
literal `temperature: 0.8` always wins, replacing any caller-set temperature. -/
def partnerOptions (options : Option AICompletionOptions) : AICompletionOptions :=
  { options.getD {} with temperature := some (0.8 : ℚ) }

/-- AIProviderService.generateConversationPartnerResponse: render
`conversation_friend`, assemble `partnerMessages`, delegate to
`generateChatResponse` with `partnerOptions`. Its catch re-throws unchanged. -/
def generateConversationPartnerResponse (store : List PromptTemplate)
    (defaultProvider : String) (adapter : Adapter) (userMessage : String)
    (conversationHistory : List AIMessage) (context : LearnContext)
    (options : Option AICompletionOptions) : Except JsError AICompletionResponse :=
  match renderTemplate store "conversation_friend"
      (chatPromptContext userMessage conversationHistory context) with
  | .error e => .error e
  | .ok systemPrompt =>
    generateChatResponse defaultProvider adapter
      (partnerMessages systemPrompt conversationHistory userMessage)
      (some (partnerOptions options))

/-- Analysis kind accepted by `analyzeText` (a closed TS string union, so the
`default: throw` branch of the source switch is unreachable and not modelled). -/
inductive AnalysisType where
  | grammar
  | style
  | vocabulary
deriving DecidableEq, Repr

/-- Template id selected by `analyzeText` for each analysis kind. -/
def templateIdFor : AnalysisType → String
  | .grammar => "grammar_correction"
  | .style => "style_improvement"
  | .vocabulary => "vocabulary_analysis"

/-- The `PromptContext` built by `analyzeText`. -/
def analyzePromptContext (text : String) (context : LearnContext) : PromptContext :=
  { userMessage := some text,
    language := some (jsOr context.language "English"),
    level := some (jsOr context.level "intermediate"),
    additionalContext := some
      [("text", text), ("level", jsOr context.level "intermediate")] }

/-- The options `analyzeText` forwards to the adapter:
`\x7b ...options, temperature: 0.3 \x7d` — 0.3 always wins over any caller-set
temperature. -/
def analyzeOptions (options : Option AICompletionOptions) : AICompletionOptions :=
  { options.getD {} with temperature := some (0.3 : ℚ) }

/-- AIProviderService.analyzeText: resolve the provider, render the matching
correction/analysis template, send it as a single user message to the adapter
(temperature forced to 0.3), 400 for an unwired provider; the catch re-throws
`HttpException`s and wraps everything else (including the renderer's plain
template-not-found `Error`) into the opaque `"Failed to analyze text"` 500. -/
def analyzeText (store : List PromptTemplate) (defaultProvider : String)
    (adapter : Adapter) (text : String) (analysisType : AnalysisType)
    (context : LearnContext) (options : Option AICompletionOptions) :
    Except JsError AICompletionResponse :=
  normalizeBoundary "Failed to analyze text"
    (let provider := resolveProvider options defaultProvider
     match renderTemplate store (templateIdFor analysisType)
         (analyzePromptContext text context) with
     | .error e => .error e
     | .ok analysisPrompt =>
       if provider = "openai" then
         (adapter [{ role := .user, content := analysisPrompt }]
           (some (analyzeOptions options))).mapError JsError.jsErr
       else
         .error (.httpException ("Unsupported AI provider: " ++ provider) 400))

/-- The `PromptContext` built by `generateConversationStarters`. -/
def starterPromptContext (context : StarterContext) : PromptContext :=
  { language := some (jsOr context.language "English"),
    level := some (jsOr context.level "intermediate"),
    additionalContext := some
      [("topics", jsOr context.topics "general conversation, daily life, hobbies, travel")] }

/-- The options `generateConversationStarters` forwards:
`\x7b ...options, temperature: 0.8 \x7d`. -/
def starterOptions (options : Option AICompletionOptions) : AICompletionOptions :=
  { options.getD {} with temperature := some (0.8 : ℚ) }

/-- AIProviderService.generateConversationStarters: render
`conversation_starter`, send it as one user message through
`generateChatResponse` with temperature forced to 0.8. Its catch re-throws
unchanged. -/
def generateConversationStarters (store : List PromptTemplate)
    (defaultProvider : String) (adapter : Adapter) (context : StarterContext)
    (options : Option AICompletionOptions) : Except JsError AICompletionResponse :=
  match renderTemplate store "conversation_starter" (starterPromptContext context) with
  | .error e => .error e
  | .ok prompt =>
    generateChatResponse defaultProvider adapter
      [{ role := .user, content := prompt }] (some (starterOptions options))

/-- OpenAIService static price table (USD per 1M tokens): input and output
price per model, `none` for models without an entry. -/
def pricing (model : String) : Option (ℚ × ℚ) :=
  if model = "gpt-4o-mini" then some (0.15, 0.6)
  else if model = "gpt-4o" then some (2.5, 10.0)
  else if model = "gpt-4" then some (30.0, 60.0)
  else if model = "gpt-3.5-turbo" then some (0.5, 1.5)
  else none

/-- JS `Number(x.toFixed(6))` for the nonnegative costs at hand: round to the
nearest multiple of 10⁻⁶, ties away from zero (JS `number` arithmetic is
modelled with exact rationals). -/
def round6 (q : ℚ) : ℚ :=
  ((⌊q * 1000000 + 1 / 2⌋ : ℤ) : ℚ) / 1000000

/-- OpenAIService.calculateCost: models without a price entry cost 0 (a warning
is logged, never an error); otherwise
`(promptTokens/1e6) * input + (completionTokens/1e6) * output`, rounded to six
decimal places. -/
def calculateCost (model : String) (promptTokens completionTokens : ℕ) : ℚ :=
  match pricing model with
  | none => 0
  | some modelPricing =>
    let promptCost := ((promptTokens : ℚ) / 1000000) * modelPricing.1
    let completionCost := ((completionTokens : ℚ) / 1000000) * modelPricing.2
    round6 (promptCost + completionCost)

/-- Result shape of `DemoController.parseGrammarCorrections`. -/
structure GrammarCorrections where
  hasErrors : Bool
  correctedText : String
  errors : List String
  explanation : String
deriving DecidableEq, Repr

/-- JS `String.prototype.toLowerCase` for the basic-latin alphabet: lower-case
every character (stated over the string's character list so that it evaluates;
it agrees with `String.toLower`, which maps `Char.toLower` over the string). -/
def toLowerStr (s : String) : String :=
  ⟨s.data.map Char.toLower⟩

/-- The marker-word test of `parseGrammarCorrections`: case-insensitive
substring search of the reply for the six fixed markers. -/
def hasCorrections (aiResponse : String) : Bool :=
  let response := toLowerStr aiResponse
  includesSubstr response "corrected" || includesSubstr response "error" ||
    includesSubstr response "mistake" || includesSubstr response "should be" ||
    includesSubstr response "change" || includesSubstr response "fix"

/-- DemoController.parseGrammarCorrections. The source wraps the whole body in
`try/catch`. When no marker word is found, the extraction block is skipped and
the "looks correct" result is returned. When a marker word is found, the
extraction block runs: step 1 (`aiResponse.match(...)` over the corrected-text
patterns) cannot throw, but step 2 iterates `errorPatterns` and its first entry
is the non-global regex `(?:errors?|mistakes?):\\s*(.*?)(?:\\n\\n|$)` with flags
`is`; ECMAScript's `String.prototype.matchAll` throws a `TypeError` whenever its
regexp argument lacks the `g` flag, so the call throws before any extraction
result is kept, and the `catch` returns the hard-coded fallback. The extraction
steps therefore never influence the returned value. -/
def parseGrammarCorrections (aiResponse originalText : String) : GrammarCorrections :=
  if hasCorrections aiResponse then
    { hasErrors := false, correctedText := originalText, errors := [],
      explanation := "Analyse des corrections indisponible." }
  else
    { hasErrors := false, correctedText := originalText, errors := [],
      explanation := "Votre texte semble correct !" }

/-- A list splits as a prefix followed by its `slice(-n)` suffix. -/
theorem lastN_split {α : Type} (n : Nat) (l : List α) :
    l = l.take (l.length - n) ++ lastN n l := by
  rw [lastN]
  exact (List.take_append_drop _ l).symm

/-- The `slice(-n)` suffix has `min n l.length` elements. -/
theorem lastN_length {α : Type} (n : Nat) (l : List α) :
    (lastN n l).length = min n l.length := by
  rw [lastN, List.length_drop]
  omega

/-- C1: for every registered template and every render context, `renderTemplate`
resolves each declared variable by the fixed precedence of the per-variable
switch — `language` (default `"English"`), `level` (default `"intermediate"`),
`userMessage`, `conversationHistory`, `text` (alias of `userMessage`), `topics`
(from `additionalContext`, with a fixed default phrase) take priority, any other
declared variable is looked up in `additionalContext`, and an unresolved
variable becomes the empty string — rendering never errors on a registered
template, and every occurrence of the placeholder is replaced, not only the
first. -/
theorem renderTemplate_resolution_policy :
    (∀ store id ctx t, getTemplate store id = some t →
      ∃ s, renderTemplate store id ctx = .ok s)
    ∧ (∀ ctx, ctx.language = none → resolveVariable ctx "language" = "English")
    ∧ (∀ ctx l, ctx.language = some l → l ≠ "" → resolveVariable ctx "language" = l)
    ∧ (∀ ctx, ctx.level = none → resolveVariable ctx "level" = "intermediate")
    ∧ (∀ ctx l, ctx.level = some l → l ≠ "" → resolveVariable ctx "level" = l)
    ∧ (∀ ctx m, ctx.userMessage = some m → m ≠ "" →
        resolveVariable ctx "userMessage" = m ∧ resolveVariable ctx "text" = m)
    ∧ (∀ ctx, ctx.userMessage = none →
        resolveVariable ctx "userMessage" = "" ∧ resolveVariable ctx "text" = "")
    ∧ (∀ ctx h, ctx.conversationHistory = some h →
        resolveVariable ctx "conversationHistory" = formatConversationHistory h)
    ∧ (∀ ctx, acLookup ctx "topics" = none →
        resolveVariable ctx "topics" = "general conversation")
    ∧ (∀ ctx v, acLookup ctx "topics" = some v → v ≠ "" →
        resolveVariable ctx "topics" = v)
    ∧ (∀ ctx v, v ≠ "language" → v ≠ "level" → v ≠ "userMessage" →
        v ≠ "conversationHistory" → v ≠ "text" → v ≠ "topics" →
        (∀ s, acLookup ctx v = some s → s ≠ "" → resolveVariable ctx v = s)
        ∧ (acLookup ctx v = none → resolveVariable ctx v = ""))
    ∧ (∀ store id ctx t, getTemplate store id = some t →
        renderTemplate store id ctx = .ok (t.declaredVariables.foldl
          (fun rendered v =>
            replaceAll rendered ("\x7b\x7b" ++ v ++ "\x7d\x7d") (resolveVariable ctx v))
          t.template))
    ∧ replaceAll "\x7b\x7bx\x7d\x7d and \x7b\x7bx\x7d\x7d" "\x7b\x7bx\x7d\x7d" "Q" = "Q and Q" := by
  refine ⟨?_, ?_, ?_, ?_, ?_, ?_, ?_, ?_, ?_, ?_, ?_, ?_, ?_⟩
  · intro store id ctx t h
    exact ⟨t.declaredVariables.foldl
        (fun rendered v =>
          replaceAll rendered ("\x7b\x7b" ++ v ++ "\x7d\x7d") (resolveVariable ctx v))
        t.template,
      by simp [renderTemplate, h]⟩
  · intro ctx h; simp [resolveVariable, jsOr, h]
  · intro ctx l h hne; simp [resolveVariable, jsOr, h, hne]
  · intro ctx h; simp [resolveVariable, jsOr, h]
  · intro ctx l h hne; simp [resolveVariable, jsOr, h, hne]
  · intro ctx m h hne
    constructor <;> simp [resolveVariable, jsOr, h, hne]
  · intro ctx h
    constructor <;> simp [resolveVariable, jsOr, h]
  · intro ctx h hh; simp [resolveVariable, hh]
  · intro ctx h; simp [resolveVariable, jsOr, h]
  · intro ctx v h hne; simp [resolveVariable, jsOr, h, hne]
  · intro ctx v h1 h2 h3 h4 h5 h6
    constructor
    · intro s hs hne; simp [resolveVariable, jsOr, h1, h2, h3, h4, h5, h6, hs, hne]
    · intro hnone; simp [resolveVariable, jsOr, h1, h2, h3, h4, h5, h6, hnone]
  · intro store id ctx t h; simp [renderTemplate, h]
  · rfl

/-- Witness for C1: concrete instances of the resolution policy — a registered
template renders successfully on the empty context, `language` defaults and is
overridden, and an undeclared well-known name falls back to
`additionalContext`. -/
theorem renderTemplate_resolution_policy_witness :
    (∃ s, renderTemplate defaultTemplates "conversation_starter" {} = .ok s)
    ∧ resolveVariable {} "language" = "English"
    ∧ resolveVariable { language := some "French" } "language" = "French"
    ∧ resolveVariable { additionalContext := some [("customVar", "val")] } "customVar" = "val" := by
  obtain ⟨h1, h2, h3, _, _, _, _, _, _, _, h11, _, _⟩ := renderTemplate_resolution_policy
  refine ⟨h1 defaultTemplates "conversation_starter" {} conversationStarterTemplate rfl,
    h2 {} rfl, h3 { language := some "French" } "French" rfl (by decide), ?_⟩
  exact (h11 { additionalContext := some [("customVar", "val")] } "customVar"
    (by decide) (by decide) (by decide) (by decide) (by decide) (by decide)).1
    "val" rfl (by decide)

/-- C2: the conversation-history variable renders the empty or absent history as
the fixed sentence, and a non-empty history contributes exactly its last
`min 5 n` messages, in original order, each line mapping role `user` to
`Student: ` and any other role to `Tutor: `. -/
theorem formatConversationHistory_spec :
    formatConversationHistory [] = "No previous conversation."
    ∧ (∀ ctx, ctx.conversationHistory = none →
        resolveVariable ctx "conversationHistory" = "No previous conversation.")
    ∧ (∀ msgs : List AIMessage, msgs ≠ [] →
        ∃ pre kept, msgs = pre ++ kept ∧ kept.length = min 5 msgs.length
          ∧ formatConversationHistory msgs = String.intercalate "\n" (kept.map formatLine))
    ∧ (∀ c, formatLine { role := .user, content := c } = "Student: " ++ c)
    ∧ (∀ r c, r ≠ Role.user → formatLine { role := r, content := c } = "Tutor: " ++ c) := by
  refine ⟨rfl, ?_, ?_, ?_, ?_⟩
  · intro ctx h; simp [resolveVariable, h]; rfl
  · intro msgs h
    refine ⟨msgs.take (msgs.length - 5), lastN 5 msgs, lastN_split 5 msgs, lastN_length 5 msgs, ?_⟩
    simp [formatConversationHistory, h, lastN]
  · intro c; rfl
  · intro r c h
    cases r with
    | system => rfl
    | user => exact absurd rfl h
    | assistant => rfl

/-- Witness for C2: a 7-message history keeps exactly its last 5 lines, and an
assistant message renders with the `Tutor: ` prefix. -/
theorem formatConversationHistory_spec_witness :
    (∃ pre kept,
      ([⟨.user, "m1"⟩, ⟨.assistant, "m2"⟩, ⟨.user, "m3"⟩, ⟨.assistant, "m4"⟩,
        ⟨.user, "m5"⟩, ⟨.assistant, "m6"⟩, ⟨.user, "m7"⟩] : List AIMessage) = pre ++ kept
      ∧ kept.length = min 5 7
      ∧ formatConversationHistory
          [⟨.user, "m1"⟩, ⟨.assistant, "m2"⟩, ⟨.user, "m3"⟩, ⟨.assistant, "m4"⟩,
           ⟨.user, "m5"⟩, ⟨.assistant, "m6"⟩, ⟨.user, "m7"⟩]
          = String.intercalate "\n" (kept.map formatLine))
    ∧ formatLine { role := .assistant, content := "ok" } = "Tutor: ok" := by
  obtain ⟨_, _, h3, _, h5⟩ := formatConversationHistory_spec
  exact ⟨h3 _ (by decide), h5 .assistant "ok" (by decide)⟩

/-- C3: for every state of the template store and every unregistered id,
`renderTemplate` fails with the template-not-found error, for every context;
it never returns a rendered string. -/
theorem renderTemplate_unknown_id :
    ∀ store id ctx, getTemplate store id = none →
      renderTemplate store id ctx = .error (templateNotFound id)
      ∧ ∀ s, renderTemplate store id ctx ≠ .ok s := by
  intro store id ctx h
  constructor
  · simp [renderTemplate, h]
  · intro s hs
    rw [renderTemplate, h] at hs
    exact Except.noConfusion hs

/-- Witness for C3: the seeded six-template store has no `no_such_template`,
and rendering it fails with the template-not-found error. -/
theorem renderTemplate_unknown_id_witness :
    renderTemplate defaultTemplates "no_such_template" {} = .error (templateNotFound "no_such_template")
    ∧ ∀ s, renderTemplate defaultTemplates "no_such_template" {} ≠ .ok s :=
  renderTemplate_unknown_id defaultTemplates "no_such_template" {} (by rfl)

/-- Render context whose conversation history (substituted third in
`conversation_tutor`) mentions the placeholder of `userMessage`, which is
declared later in the variables array. -/
def seqCtxEarlier : PromptContext :=
  { language := some "English", level := some "beginner",
    userMessage := some "hello",
    conversationHistory := some [{ role := .user, content := "say \x7b\x7buserMessage\x7d\x7d now" }] }

/-- Render context whose user message (substituted last in
`conversation_tutor`) mentions the placeholder of `language`, which was already
processed first. -/
def seqCtxLater : PromptContext :=
  { language := some "French", level := some "beginner",
    userMessage := some "I love \x7b\x7blanguage\x7d\x7d!",
    conversationHistory := some [] }

/-- C10: `renderTemplate` substitutes declared variables sequentially, one
variable at a time in the order of the template's variables array, over the
partially substituted string: the render is the left fold of global
replacements, so a placeholder of a later variable introduced by an earlier
value is replaced too (in `conversation_tutor`, a history line mentioning the
`userMessage` placeholder receives the user's message), whereas a placeholder
of an already-processed variable introduced by a later value stays literal. -/
theorem renderTemplate_sequential_substitution :
    (∀ store id ctx t, getTemplate store id = some t →
      renderTemplate store id ctx = .ok (t.declaredVariables.foldl
        (fun rendered v =>
          replaceAll rendered ("\x7b\x7b" ++ v ++ "\x7d\x7d") (resolveVariable ctx v))
        t.template))
    ∧ conversationTutorTemplate.declaredVariables
        = ["language", "level", "conversationHistory", "userMessage"]
    ∧ includesSubstr (renderOrEmpty defaultTemplates "conversation_tutor" seqCtxEarlier)
        "Student: say hello now" = true
    ∧ includesSubstr (renderOrEmpty defaultTemplates "conversation_tutor" seqCtxLater)
        "I love \x7b\x7blanguage\x7d\x7d!" = true
    ∧ includesSubstr (renderOrEmpty defaultTemplates "conversation_tutor" seqCtxLater)
        "I love French!" = false := by
  refine ⟨?_, rfl, ?_, ?_, ?_⟩
  · intro store id ctx t h; simp [renderTemplate, h]
  · rfl
  · rfl
  · rfl

/-- Witness for C10: the fold characterization applied to the registered
`conversation_tutor` template. -/
theorem renderTemplate_sequential_substitution_witness :
    renderTemplate defaultTemplates "conversation_tutor" seqCtxEarlier
      = .ok (conversationTutorTemplate.declaredVariables.foldl
        (fun rendered v =>
          replaceAll rendered ("\x7b\x7b" ++ v ++ "\x7d\x7d") (resolveVariable seqCtxEarlier v))
        conversationTutorTemplate.template) :=
  renderTemplate_sequential_substitution.1 defaultTemplates "conversation_tutor"
    seqCtxEarlier conversationTutorTemplate rfl

/-- C7: for every history list and user message, `generateTutorResponse` sends
exactly one system message holding the rendered `conversation_tutor` prompt
first, then at most the last 10 history messages in their original order, then
exactly one user message holding the new user message last; the list's length is
`min 10 history.length + 2`. -/
theorem generateTutorResponse_message_window :
    ∀ store defaultProvider adapter (userMessage : String)
      (history : List AIMessage) ctx options t,
      getTemplate store "conversation_tutor" = some t →
      ∃ systemPrompt pre kept,
        renderTemplate store "conversation_tutor"
          (chatPromptContext userMessage history ctx) = .ok systemPrompt
        ∧ history = pre ++ kept
        ∧ kept.length = min 10 history.length
        ∧ generateTutorResponse store defaultProvider adapter userMessage history ctx options
            = generateChatResponse defaultProvider adapter
                ({ role := .system, content := systemPrompt } ::
                  (kept ++ [{ role := .user, content := userMessage }])) options
        ∧ ({ role := .system, content := systemPrompt } ::
            (kept ++ [{ role := .user, content := userMessage }]) : List AIMessage).length
            = min 10 history.length + 2 := by
  intro store defaultProvider adapter userMessage history ctx options t h
  refine ⟨t.declaredVariables.foldl
      (fun rendered v =>
        replaceAll rendered ("\x7b\x7b" ++ v ++ "\x7d\x7d")
          (resolveVariable (chatPromptContext userMessage history ctx) v))
      t.template,
    history.take (history.length - 10), lastN 10 history,
    by simp [renderTemplate, h], lastN_split 10 history, lastN_length 10 history, ?_, ?_⟩
  · simp [generateTutorResponse, renderTemplate, h, tutorMessages]
  · simp [List.length_append, lastN_length]

/-- Witness for C7: a concrete 12-message history is trimmed to its last 10 and
framed by the system and user messages. -/
theorem generateTutorResponse_message_window_witness :
    ∃ systemPrompt pre kept,
      renderTemplate defaultTemplates "conversation_tutor"
        (chatPromptContext "Hi"
          ((List.range 12).map fun i => ⟨Role.user, toString i⟩) {}) = .ok systemPrompt
      ∧ ((List.range 12).map fun i => (⟨Role.user, toString i⟩ : AIMessage)) = pre ++ kept
      ∧ kept.length = min 10 ((List.range 12).map fun i => (⟨Role.user, toString i⟩ : AIMessage)).length
      ∧ generateTutorResponse defaultTemplates "openai" (fun _ _ => .ok ⟨"r"⟩) "Hi"
          ((List.range 12).map fun i => ⟨Role.user, toString i⟩) {} none
          = generateChatResponse "openai" (fun _ _ => .ok ⟨"r"⟩)
              ({ role := .system, content := systemPrompt } ::
                (kept ++ [{ role := .user, content := "Hi" }])) none
      ∧ ({ role := .system, content := systemPrompt } ::
          (kept ++ [{ role := .user, content := "Hi" }]) : List AIMessage).length
          = min 10 ((List.range 12).map fun i => (⟨Role.user, toString i⟩ : AIMessage)).length + 2 :=
  generateTutorResponse_message_window defaultTemplates "openai" (fun _ _ => .ok ⟨"r"⟩)
    "Hi" ((List.range 12).map fun i => ⟨Role.user, toString i⟩) {} none
    conversationTutorTemplate rfl

/-- Counterexample to C5 as stated: a caller-set temperature is NOT left in
effect. With the caller explicitly setting `temperature = 0.5`, the options
object forwarded to the adapter carries `temperature = 0.8` (the source spreads
the caller options first and then writes `temperature: 0.8`, so the literal
always wins), and the operation forwards exactly that options object. -/
theorem partnerResponse_overrides_caller_temperature :
    (partnerOptions (some { temperature := some (1/2 : ℚ) })).temperature = some (0.8 : ℚ)
    ∧ (0.8 : ℚ) ≠ (1/2 : ℚ)
    ∧ generateConversationPartnerResponse defaultTemplates "openai" (fun _ _ => .ok ⟨"r"⟩)
        "Hello" [] {} (some { temperature := some (1/2 : ℚ) })
        = generateChatResponse "openai" (fun _ _ => .ok ⟨"r"⟩)
            ({ role := .system,
               content := renderOrEmpty defaultTemplates "conversation_friend"
                 (chatPromptContext "Hello" [] {}) } ::
              [{ role := .user, content := "Hello" }])
            (some (partnerOptions (some { temperature := some (1/2 : ℚ) }))) := by
  refine ⟨rfl, by norm_num, ?_⟩
  rfl

/-- C5 (amended): `generateConversationPartnerResponse` sends exactly one
system message with the rendered `conversation_friend` prompt, then only the
last 8 history messages in original order, then the new user message; the
temperature forwarded to the adapter is always 0.8 — a caller-set temperature
is replaced, not left in effect. -/
theorem generateConversationPartnerResponse_window_and_temperature :
    ∀ store defaultProvider adapter (userMessage : String)
      (history : List AIMessage) ctx options t,
      getTemplate store "conversation_friend" = some t →
      ∃ systemPrompt pre kept,
        renderTemplate store "conversation_friend"
          (chatPromptContext userMessage history ctx) = .ok systemPrompt
        ∧ history = pre ++ kept
        ∧ kept.length = min 8 history.length
        ∧ generateConversationPartnerResponse store defaultProvider adapter
            userMessage history ctx options
            = generateChatResponse defaultProvider adapter
                ({ role := .system, content := systemPrompt } ::
                  (kept ++ [{ role := .user, content := userMessage }]))
                (some (partnerOptions options))
        ∧ (partnerOptions options).temperature = some (0.8 : ℚ) := by
  intro store defaultProvider adapter userMessage history ctx options t h
  refine ⟨t.declaredVariables.foldl
      (fun rendered v =>
        replaceAll rendered ("\x7b\x7b" ++ v ++ "\x7d\x7d")
          (resolveVariable (chatPromptContext userMessage history ctx) v))
      t.template,
    history.take (history.length - 8), lastN 8 history,
    by simp [renderTemplate, h], lastN_split 8 history, lastN_length 8 history, ?_, rfl⟩
  simp [generateConversationPartnerResponse, renderTemplate, h, partnerMessages]

/-- Witness for the amended C5: a concrete 9-message history is trimmed to its
last 8 and the forwarded temperature is 0.8. -/
theorem generateConversationPartnerResponse_window_witness :
    ∃ systemPrompt pre kept,
      renderTemplate defaultTemplates "conversation_friend"
        (chatPromptContext "Hey"
          ((List.range 9).map fun i => ⟨Role.assistant, toString i⟩) {}) = .ok systemPrompt
      ∧ ((List.range 9).map fun i => (⟨Role.assistant, toString i⟩ : AIMessage)) = pre ++ kept
      ∧ kept.length = min 8 ((List.range 9).map fun i => (⟨Role.assistant, toString i⟩ : AIMessage)).length
      ∧ generateConversationPartnerResponse defaultTemplates "openai" (fun _ _ => .ok ⟨"r"⟩) "Hey"
          ((List.range 9).map fun i => ⟨Role.assistant, toString i⟩) {}
          (some { temperature := some (1/4 : ℚ) })
          = generateChatResponse "openai" (fun _ _ => .ok ⟨"r"⟩)
              ({ role := .system, content := systemPrompt } ::
                (kept ++ [{ role := .user, content := "Hey" }]))
              (some (partnerOptions (some { temperature := some (1/4 : ℚ) })))
      ∧ (partnerOptions (some { temperature := some (1/4 : ℚ) })).temperature = some (0.8 : ℚ) :=
  generateConversationPartnerResponse_window_and_temperature defaultTemplates "openai"
    (fun _ _ => .ok ⟨"r"⟩) "Hey" ((List.range 9).map fun i => ⟨Role.assistant, toString i⟩) {}
    (some { temperature := some (1/4 : ℚ) }) conversationFriendTemplate rfl

/-- C6: for every caller-supplied options value, `analyzeText` invokes the
provider adapter with temperature 0.3 and `generateConversationStarters` with
temperature 0.8; in both operations a caller-chosen temperature is always
overridden (the options object forwarded to the adapter is `analyzeOptions` /
`starterOptions`, whose temperature field is the forced constant, and
`generateChatResponse` hands its options to the adapter verbatim). -/
theorem forced_temperatures_analysis_and_starters :
    (∀ options, (analyzeOptions options).temperature = some (0.3 : ℚ))
    ∧ (∀ options, (starterOptions options).temperature = some (0.8 : ℚ))
    ∧ (∀ defaultProvider (adapter : Adapter) messages options,
        resolveProvider options defaultProvider = "openai" →
        generateChatResponse defaultProvider adapter messages options
          = normalizeBoundary "Failed to generate AI response"
              ((adapter messages options).mapError JsError.jsErr))
    ∧ (∀ store defaultProvider (adapter : Adapter) text analysisType ctx options t,
        getTemplate store (templateIdFor analysisType) = some t →
        resolveProvider options defaultProvider = "openai" →
        ∃ prompt,
          renderTemplate store (templateIdFor analysisType)
            (analyzePromptContext text ctx) = .ok prompt
          ∧ analyzeText store defaultProvider adapter text analysisType ctx options
              = normalizeBoundary "Failed to analyze text"
                  ((adapter [{ role := .user, content := prompt }]
                    (some (analyzeOptions options))).mapError JsError.jsErr))
    ∧ (∀ store defaultProvider (adapter : Adapter) ctx options t,
        getTemplate store "conversation_starter" = some t →
        ∃ prompt,
          renderTemplate store "conversation_starter" (starterPromptContext ctx) = .ok prompt
          ∧ generateConversationStarters store defaultProvider adapter ctx options
              = generateChatResponse defaultProvider adapter
                  [{ role := .user, content := prompt }] (some (starterOptions options))) := by
  refine ⟨fun _ => rfl, fun _ => rfl, ?_, ?_, ?_⟩
  · intro defaultProvider adapter messages options hp
    simp [generateChatResponse, hp]
  · intro store defaultProvider adapter text analysisType ctx options t h hp
    refine ⟨t.declaredVariables.foldl
        (fun rendered v =>
          replaceAll rendered ("\x7b\x7b" ++ v ++ "\x7d\x7d")
            (resolveVariable (analyzePromptContext text ctx) v))
        t.template,
      by simp [renderTemplate, h], ?_⟩
    simp [analyzeText, renderTemplate, h, hp]
  · intro store defaultProvider adapter ctx options t h
    refine ⟨t.declaredVariables.foldl
        (fun rendered v =>
          replaceAll rendered ("\x7b\x7b" ++ v ++ "\x7d\x7d")
            (resolveVariable (starterPromptContext ctx) v))
        t.template,
      by simp [renderTemplate, h], ?_⟩
    simp [generateConversationStarters, renderTemplate, h]

/-- Witness for C6: concrete instances — the forced 0.3 and 0.8 even when the
caller asked for 0.5, and the adapter-call shape of both operations at the
seeded store. -/
theorem forced_temperatures_witness :
    (analyzeOptions (some { temperature := some (1/2 : ℚ) })).temperature = some (0.3 : ℚ)
    ∧ (starterOptions (some { temperature := some (1/2 : ℚ) })).temperature = some (0.8 : ℚ)
    ∧ (∃ prompt,
        renderTemplate defaultTemplates "grammar_correction"
          (analyzePromptContext "I are fine." {}) = .ok prompt
        ∧ analyzeText defaultTemplates "openai" (fun _ _ => .ok ⟨"r"⟩) "I are fine."
            .grammar {} (some { temperature := some (1/2 : ℚ) })
            = normalizeBoundary "Failed to analyze text"
                (((fun _ _ => .ok ⟨"r"⟩ : Adapter) [{ role := .user, content := prompt }]
                  (some (analyzeOptions (some { temperature := some (1/2 : ℚ) })))).mapError
                  JsError.jsErr))
    ∧ (∃ prompt,
        renderTemplate defaultTemplates "conversation_starter" (starterPromptContext {}) = .ok prompt
        ∧ generateConversationStarters defaultTemplates "openai" (fun _ _ => .ok ⟨"r"⟩) {}
            (some { temperature := some (1/2 : ℚ) })
            = generateChatResponse "openai" (fun _ _ => .ok ⟨"r"⟩)
                [{ role := .user, content := prompt }]
                (some (starterOptions (some { temperature := some (1/2 : ℚ) })))) := by
  obtain ⟨h1, h2, _, h4, h5⟩ := forced_temperatures_analysis_and_starters
  exact ⟨h1 _, h2 _,
    h4 defaultTemplates "openai" (fun _ _ => .ok ⟨"r"⟩) "I are fine." .grammar {}
      (some { temperature := some (1/2 : ℚ) }) grammarCorrectionTemplate rfl rfl,
    h5 defaultTemplates "openai" (fun _ _ => .ok ⟨"r"⟩) {}
      (some { temperature := some (1/2 : ℚ) }) conversationStarterTemplate rfl⟩

/-- Counterexample to C4 as stated: a `TemplateNotFound` error does NOT pass
through `analyzeText` unchanged. On a store state lacking `grammar_correction`
(here the empty store), the renderer fails with the plain template-not-found
`Error`, but `analyzeText`'s catch — which re-throws only `HttpException`s —
normalizes it into the opaque `"Failed to analyze text"` 500 failure, so the
caller never sees the `TemplateNotFound` error. -/
theorem analyzeText_swallows_templateNotFound :
    renderTemplate [] "grammar_correction" (analyzePromptContext "I are fine." {})
      = .error (templateNotFound "grammar_correction")
    ∧ analyzeText [] "openai" (fun _ _ => .ok ⟨"ok"⟩) "I are fine." .grammar {} none
        = .error (.httpException "Failed to analyze text" 500)
    ∧ JsError.httpException "Failed to analyze text" 500
        ≠ templateNotFound "grammar_correction" := by
  exact ⟨rfl, rfl, by decide⟩

/-- C4 (amended): `generateChatResponse` fails with the `UnsupportedProvider`
`HttpException` (HTTP 400) for every resolved provider id other than `openai`;
at the orchestrator catch boundary every `HttpException` (in particular
`UnsupportedProvider`) passes through unchanged while any other error is
normalized to the operation's single opaque failure category
(`"Failed to generate AI response"` / `"Failed to analyze text"`, HTTP 500);
the plain `TemplateNotFound` error passes unchanged through
`generateTutorResponse`, `generateConversationPartnerResponse` and
`generateConversationStarters` (whose catches re-throw), but inside
`analyzeText` it is caught and normalized to the opaque failure; adapter
failures are normalized to the opaque per-operation failure. -/
theorem orchestrator_error_policy :
    (∀ defaultProvider (adapter : Adapter) messages options,
      resolveProvider options defaultProvider ≠ "openai" →
      generateChatResponse defaultProvider adapter messages options
        = .error (.httpException
            ("Unsupported AI provider: " ++ resolveProvider options defaultProvider) 400))
    ∧ (∀ msg a b, normalizeBoundary msg (.error (.httpException a b))
        = .error (.httpException a b))
    ∧ (∀ msg m, normalizeBoundary msg (.error (.jsErr m))
        = .error (.httpException msg 500))
    ∧ (∀ store defaultProvider (adapter : Adapter) userMessage history ctx options,
        getTemplate store "conversation_tutor" = none →
        generateTutorResponse store defaultProvider adapter userMessage history ctx options
          = .error (templateNotFound "conversation_tutor"))
    ∧ (∀ store defaultProvider (adapter : Adapter) userMessage history ctx options,
        getTemplate store "conversation_friend" = none →
        generateConversationPartnerResponse store defaultProvider adapter
          userMessage history ctx options
          = .error (templateNotFound "conversation_friend"))
    ∧ (∀ store defaultProvider (adapter : Adapter) ctx options,
        getTemplate store "conversation_starter" = none →
        generateConversationStarters store defaultProvider adapter ctx options
          = .error (templateNotFound "conversation_starter"))
    ∧ (∀ store defaultProvider (adapter : Adapter) text analysisType ctx options,
        getTemplate store (templateIdFor analysisType) = none →
        analyzeText store defaultProvider adapter text analysisType ctx options
          = .error (.httpException "Failed to analyze text" 500))
    ∧ (∀ defaultProvider messages options m,
        resolveProvider options defaultProvider = "openai" →
        generateChatResponse defaultProvider (fun _ _ => .error m) messages options
          = .error (.httpException "Failed to generate AI response" 500))
    ∧ (∀ store defaultProvider text analysisType ctx options m t,
        getTemplate store (templateIdFor analysisType) = some t →
        resolveProvider options defaultProvider = "openai" →
        analyzeText store defaultProvider (fun _ _ => .error m) text analysisType ctx options
          = .error (.httpException "Failed to analyze text" 500)) := by
  refine ⟨?_, fun _ _ _ => rfl, fun _ _ => rfl, ?_, ?_, ?_, ?_, ?_, ?_⟩
  · intro defaultProvider adapter messages options hp
    simp [generateChatResponse, normalizeBoundary, hp]
  · intro store defaultProvider adapter userMessage history ctx options h
    simp [generateTutorResponse, renderTemplate, h]
  · intro store defaultProvider adapter userMessage history ctx options h
    simp [generateConversationPartnerResponse, renderTemplate, h]
  · intro store defaultProvider adapter ctx options h
    simp [generateConversationStarters, renderTemplate, h]
  · intro store defaultProvider adapter text analysisType ctx options h
    simp [analyzeText, renderTemplate, h, normalizeBoundary, templateNotFound]
  · intro defaultProvider messages options m hp
    simp [generateChatResponse, hp, normalizeBoundary, Except.mapError]
  · intro store defaultProvider text analysisType ctx options m t h hp
    simp [analyzeText, renderTemplate, h, hp, normalizeBoundary, Except.mapError]

/-- Witness for the amended C4: concrete instances — the anthropic id has no
adapter and yields the 400 `UnsupportedProvider`, it passes a boundary
unchanged, the tutor operation re-throws a template-not-found unchanged on the
empty store, and a failing adapter is normalized per operation. -/
theorem orchestrator_error_policy_witness :
    generateChatResponse "openai" (fun _ _ => .ok ⟨"r"⟩) []
        (some { provider := some "anthropic" })
      = .error (.httpException "Unsupported AI provider: anthropic" 400)
    ∧ normalizeBoundary "Failed to analyze text"
        (.error (.httpException "Unsupported AI provider: anthropic" 400))
      = .error (.httpException "Unsupported AI provider: anthropic" 400)
    ∧ generateTutorResponse [] "openai" (fun _ _ => .ok ⟨"r"⟩) "Hi" [] {} none
      = .error (templateNotFound "conversation_tutor")
    ∧ generateChatResponse "openai" (fun _ _ => .error "socket hang up") [] none
      = .error (.httpException "Failed to generate AI response" 500)
    ∧ analyzeText defaultTemplates "openai" (fun _ _ => .error "socket hang up")
        "text" .style {} none
      = .error (.httpException "Failed to analyze text" 500) := by
  obtain ⟨h1, h2, _, h4, _, _, _, h8, h9⟩ := orchestrator_error_policy
  exact ⟨h1 "openai" (fun _ _ => .ok ⟨"r"⟩) [] (some { provider := some "anthropic" })
      (by decide),
    h2 "Failed to analyze text" "Unsupported AI provider: anthropic" 400,
    h4 [] "openai" (fun _ _ => .ok ⟨"r"⟩) "Hi" [] {} none rfl,
    h8 "openai" [] none "socket hang up" rfl,
    h9 defaultTemplates "openai" "text" .style {} none "socket hang up"
      styleImprovementTemplate rfl rfl⟩

/-- Every price entry in the static table is nonnegative. -/
theorem pricing_nonneg (model : String) (entry : ℚ × ℚ)
    (h : pricing model = some entry) : 0 ≤ entry.1 ∧ 0 ≤ entry.2 := by
  unfold pricing at h
  split_ifs at h <;> simp only [Option.some.injEq] at h <;> rw [← h] <;> constructor <;> norm_num

/-- Rounding to six decimal places (half away from zero on nonnegative inputs)
is monotone. -/
theorem round6_mono {q r : ℚ} (h : q ≤ r) : round6 q ≤ round6 r := by
  unfold round6
  have h1 : (⌊q * 1000000 + 1 / 2⌋ : ℤ) ≤ ⌊r * 1000000 + 1 / 2⌋ :=
    Int.floor_le_floor (by linarith)
  have h2 : ((⌊q * 1000000 + 1 / 2⌋ : ℤ) : ℚ) ≤ ((⌊r * 1000000 + 1 / 2⌋ : ℤ) : ℚ) := by
    exact_mod_cast h1
  linarith

/-- C8: for every model name and token counts, a model with a price entry costs
`(promptTokens/1e6) * inputPrice + (completionTokens/1e6) * outputPrice` rounded
to six decimal places, a model without a price entry costs exactly 0 (the
computation is total — it never fails), and for a fixed model the cost is
monotone in each token count. -/
theorem calculateCost_spec :
    (∀ model promptTokens completionTokens, pricing model = none →
      calculateCost model promptTokens completionTokens = 0)
    ∧ (∀ model promptTokens completionTokens entry, pricing model = some entry →
        calculateCost model promptTokens completionTokens
          = round6 (((promptTokens : ℚ) / 1000000) * entry.1
              + ((completionTokens : ℚ) / 1000000) * entry.2))
    ∧ (∀ model p q c, p ≤ q →
        calculateCost model p c ≤ calculateCost model q c)
    ∧ (∀ model p c d, c ≤ d →
        calculateCost model p c ≤ calculateCost model p d) := by
  refine ⟨?_, ?_, ?_, ?_⟩
  · intro model promptTokens completionTokens h
    simp [calculateCost, h]
  · intro model promptTokens completionTokens entry h
    simp [calculateCost, h]
  · intro model p q c hpq
    rcases he : pricing model with _ | entry
    · simp [calculateCost, he]
    · obtain ⟨hi, ho⟩ := pricing_nonneg model entry he
      simp only [calculateCost, he]
      apply round6_mono
      have hc : ((p : ℚ)) ≤ (q : ℚ) := by exact_mod_cast hpq
      have : ((p : ℚ)) / 1000000 ≤ (q : ℚ) / 1000000 := by linarith
      have := mul_le_mul_of_nonneg_right this hi
      linarith
  · intro model p c d hcd
    rcases he : pricing model with _ | entry
    · simp [calculateCost, he]
    · obtain ⟨hi, ho⟩ := pricing_nonneg model entry he
      simp only [calculateCost, he]
      apply round6_mono
      have hc : ((c : ℚ)) ≤ (d : ℚ) := by exact_mod_cast hcd
      have : ((c : ℚ)) / 1000000 ≤ (d : ℚ) / 1000000 := by linarith
      have := mul_le_mul_of_nonneg_right this ho
      linarith

/-- Witness for C8: concrete instances — an unpriced model costs 0, the priced
`gpt-4o` obeys the formula, and its cost is monotone between two concrete token
counts. -/
theorem calculateCost_spec_witness :
    calculateCost "o1-preview" 1234 567 = 0
    ∧ calculateCost "gpt-4o" 1000 2000
        = round6 (((1000 : ℚ) / 1000000) * 2.5 + ((2000 : ℚ) / 1000000) * 10.0)
    ∧ calculateCost "gpt-4o" 1000 2000 ≤ calculateCost "gpt-4o" 5000 2000
    ∧ calculateCost "gpt-4o" 1000 2000 ≤ calculateCost "gpt-4o" 1000 9000 := by
  obtain ⟨h1, h2, h3, h4⟩ := calculateCost_spec
  exact ⟨h1 "o1-preview" 1234 567 rfl,
    h2 "gpt-4o" 1000 2000 (2.5, 10.0) rfl,
    h3 "gpt-4o" 1000 5000 2000 (by norm_num),
    h4 "gpt-4o" 1000 2000 9000 (by norm_num)⟩

/-- An analysis reply of the shape scenario C of the spec describes: it contains
the substring `corrected version: "I am fine."`. -/
def demoReply : String :=
  "Here is the corrected version: \"I am fine.\" The verb must agree with the subject."

/-- C9, evaluated at the claim's failing input: the reply does contain the
marker substring (so the intended marker-word detection would fire), yet
`parseGrammarCorrections` returns `hasErrors = false` and leaves
`correctedText` at the original `"I are fine."` instead of extracting
`"I am fine."` — because reaching the extraction block always calls
`String.prototype.matchAll` on a non-global regex, which throws a `TypeError`
that the surrounding catch converts into the fallback result. The claim (and
the spec's scenario C, the Swagger schema of the demo endpoint and the
function's own marker computation) describes the clear intent; the code's
`matchAll` misuse is the slip. -/
theorem parseGrammarCorrections_matchall_bug :
    includesSubstr demoReply "corrected version: \"I am fine.\"" = true
    ∧ hasCorrections demoReply = true
    ∧ parseGrammarCorrections demoReply "I are fine."
        = { hasErrors := false, correctedText := "I are fine.", errors := [],
            explanation := "Analyse des corrections indisponible." }
    ∧ (parseGrammarCorrections demoReply "I are fine.").hasErrors = false
    ∧ (parseGrammarCorrections demoReply "I are fine.").correctedText ≠ "I am fine." := by
  exact ⟨rfl, rfl, rfl, rfl, by decide⟩

end Penpal
